import Mathlib

/-!
Verification development for the code-health analysis engine.

Each definition is a shallow embedding of a function of the source tree
(`src/src/...`), with the source location given in its doc comment.
Machine integers of the source are modelled as `ℤ`/`ℕ`, Python floats that
only ever hold exact ratios of integers as `ℚ`, and Python lists as `List`.
-/

/- ### Health score calculator (src/src/analyzers/health_score.py) -/

/-- Metrics dictionary consumed by `HealthScoreCalculator.calculate`
(src/src/analyzers/health_score.py lines 31-113).  Count-valued entries
(`large_commits`, `late_night_commits`, `weekend_commits`, `high_risk_files`)
are integers in every caller; the rate-valued entries are Python floats that
always hold exact rationals, modelled as `ℚ`. -/
structure HealthMetrics where
  large_commits : ℤ
  churn_rate : ℚ
  rework_rate : ℚ
  message_quality : ℚ
  late_night_commits : ℤ
  weekend_commits : ℤ
  high_risk_files : ℤ

/-- The four threshold entries of the config dictionary read by
`HealthScoreCalculator.calculate`, with the source's `.get` defaults. -/
structure HealthConfig where
  churn_rate_danger : ℚ
  churn_rate_warning : ℚ
  rework_rate_danger : ℚ
  rework_rate_warning : ℚ

/-- The defaults used by `config.get(...)` in health_score.py:
churn 30/10, rework 30/15. -/
def defaultHealthConfig : HealthConfig := ⟨30, 10, 30, 15⟩

/-- health_score.py lines 52-56: `if large_commits > 0: deduction = large_commits * 5`. -/
def largeCommitDeduction (large_commits : ℤ) : ℤ :=
  if large_commits > 0 then large_commits * 5 else 0

/-- health_score.py lines 59-70: 20 points above `churn_rate_danger`,
else 10 points above `churn_rate_warning`, else nothing. -/
def churnDeduction (cfg : HealthConfig) (churn_rate : ℚ) : ℤ :=
  if churn_rate > cfg.churn_rate_danger then 20
  else if churn_rate > cfg.churn_rate_warning then 10
  else 0

/-- health_score.py lines 73-84: 15 points above `rework_rate_danger`,
else 8 points above `rework_rate_warning`, else nothing. -/
def reworkDeduction (cfg : HealthConfig) (rework_rate : ℚ) : ℤ :=
  if rework_rate > cfg.rework_rate_danger then 15
  else if rework_rate > cfg.rework_rate_warning then 8
  else 0

/-- health_score.py lines 87-91: `if message_quality < 60: deduction = 10`. -/
def messageQualityDeduction (message_quality : ℚ) : ℤ :=
  if message_quality < 60 then 10 else 0

/-- health_score.py lines 94-101: `abnormal_commits = late + weekend;
if abnormal_commits > 0: deduction = abnormal_commits * 2`.
Note: the source applies no cap here. -/
def abnormalTimeDeduction (late_night_commits weekend_commits : ℤ) : ℤ :=
  if late_night_commits + weekend_commits > 0
  then (late_night_commits + weekend_commits) * 2
  else 0

/-- src/src/reporters/daily.py lines 388-394 (inline health score):
`d = abnormal * 2` with no cap, identical to the analyzer. -/
def dailyAbnormalTimeDeduction (late_night weekend : ℤ) : ℤ :=
  if late_night + weekend > 0 then (late_night + weekend) * 2 else 0

/-- src/src/reporters/weekly.py lines 391-395 (inline health score):
`d = min(abnormal * 2, 20)` — the only copy that caps at 20. -/
def weeklyAbnormalTimeDeduction (late_night weekend : ℤ) : ℤ :=
  if late_night + weekend > 0 then min ((late_night + weekend) * 2) 20 else 0

/-- health_score.py lines 104-108: `deduction = min(high_risk_files * 3, 15)`
when the count is positive. -/
def highRiskFilesDeduction (high_risk_files : ℤ) : ℤ :=
  if high_risk_files > 0 then min (high_risk_files * 3) 15 else 0

/-- The total subtracted from the starting score 100 by
`HealthScoreCalculator.calculate`: the source subtracts each triggered
deduction in sequence, which equals subtracting this sum. -/
def totalDeduction (cfg : HealthConfig) (m : HealthMetrics) : ℤ :=
  largeCommitDeduction m.large_commits
    + churnDeduction cfg m.churn_rate
    + reworkDeduction cfg m.rework_rate
    + messageQualityDeduction m.message_quality
    + abnormalTimeDeduction m.late_night_commits m.weekend_commits
    + highRiskFilesDeduction m.high_risk_files

/-- health_score.py line 111: `score = max(0, score)` applied to
`100 - totalDeduction`; integer-valued because every deduction is an integer. -/
def rawScore (cfg : HealthConfig) (m : HealthMetrics) : ℤ :=
  max 0 (100 - totalDeduction cfg m)

/-- Python `round(x, 1)` on the exact rational score (health_score.py
line 113).  Rounding to one decimal; on the integer-valued scores produced
by `rawScore` it is the identity (proved in `roundTenth_intCast`), so the
half-even versus half-up tie rule never fires. -/
def roundTenth (q : ℚ) : ℚ := ((round (q * 10) : ℤ) : ℚ) / 10

/-- `HealthScoreCalculator.calculate` (health_score.py lines 31-113):
starting score 100, sequential deductions, clamp below at 0, round to one
decimal. -/
def calculate (cfg : HealthConfig) (m : HealthMetrics) : ℚ :=
  roundTenth ((rawScore cfg m : ℤ) : ℚ)

theorem roundTenth_intCast (n : ℤ) : roundTenth ((n : ℤ) : ℚ) = ((n : ℤ) : ℚ) := by
  unfold roundTenth
  have h : ((n : ℚ) * 10) = (((n * 10 : ℤ) : ℤ) : ℚ) := by push_cast; ring
  rw [h, round_intCast]
  push_cast
  ring

theorem calculate_eq_rawScore (cfg : HealthConfig) (m : HealthMetrics) :
    calculate cfg m = ((rawScore cfg m : ℤ) : ℚ) := by
  unfold calculate
  exact roundTenth_intCast _

theorem largeCommitDeduction_nonneg (n : ℤ) : 0 ≤ largeCommitDeduction n := by
  unfold largeCommitDeduction; split <;> omega

theorem churnDeduction_nonneg (cfg : HealthConfig) (r : ℚ) : 0 ≤ churnDeduction cfg r := by
  unfold churnDeduction; split_ifs <;> norm_num

theorem reworkDeduction_nonneg (cfg : HealthConfig) (r : ℚ) : 0 ≤ reworkDeduction cfg r := by
  unfold reworkDeduction; split_ifs <;> norm_num

theorem messageQualityDeduction_nonneg (q : ℚ) : 0 ≤ messageQualityDeduction q := by
  unfold messageQualityDeduction; split_ifs <;> norm_num

theorem abnormalTimeDeduction_nonneg (a b : ℤ) : 0 ≤ abnormalTimeDeduction a b := by
  unfold abnormalTimeDeduction; split <;> omega

theorem highRiskFilesDeduction_nonneg (n : ℤ) : 0 ≤ highRiskFilesDeduction n := by
  unfold highRiskFilesDeduction; split <;> omega

theorem totalDeduction_nonneg (cfg : HealthConfig) (m : HealthMetrics) :
    0 ≤ totalDeduction cfg m := by
  unfold totalDeduction
  have h1 := largeCommitDeduction_nonneg m.large_commits
  have h2 := churnDeduction_nonneg cfg m.churn_rate
  have h3 := reworkDeduction_nonneg cfg m.rework_rate
  have h4 := messageQualityDeduction_nonneg m.message_quality
  have h5 := abnormalTimeDeduction_nonneg m.late_night_commits m.weekend_commits
  have h6 := highRiskFilesDeduction_nonneg m.high_risk_files
  omega

/-- C6: For every metrics dictionary (all integer counts and rational rates)
and every threshold configuration, the score returned by
`HealthScoreCalculator.calculate` lies in the interval `[0, 100]`: it is
clamped below at 0, and it never exceeds 100 because every deduction branch
only ever subtracts a nonnegative amount. -/
theorem health_score_bounds (cfg : HealthConfig) (m : HealthMetrics) :
    0 ≤ calculate cfg m ∧ calculate cfg m ≤ 100 := by
  rw [calculate_eq_rawScore]
  have hD := totalDeduction_nonneg cfg m
  have h0 : (0 : ℤ) ≤ rawScore cfg m := le_max_left 0 _
  have h100 : rawScore cfg m ≤ 100 := by
    unfold rawScore; omega
  constructor
  · exact_mod_cast h0
  · exact_mod_cast h100

/-- Metrics input with 15 late-night commits and no other trigger, used to
exhibit the missing 20-point cap. -/
def capMetrics : HealthMetrics := ⟨0, 0, 0, 100, 15, 0, 0⟩

/-- C1 counterexample: with 15 late-night commits and 0 weekend commits the
abnormal-time trigger of `HealthScoreCalculator.calculate` subtracts 30
points, not `min(2*15, 20) = 20`: the resulting score is 70, whereas the
capped deduction of the claim would leave 80. -/
theorem abnormal_cap_counterexample :
    abnormalTimeDeduction 15 0 = 30 ∧
    abnormalTimeDeduction 15 0 ≠ min (2 * (15 + 0)) 20 ∧
    calculate defaultHealthConfig capMetrics = 70 ∧ (70 : ℚ) ≠ 80 := by
  refine ⟨by decide, by decide, ?_, by norm_num⟩
  rw [calculate_eq_rawScore]
  norm_num [rawScore, totalDeduction, largeCommitDeduction, churnDeduction,
    reworkDeduction, messageQualityDeduction, abnormalTimeDeduction,
    highRiskFilesDeduction, capMetrics, defaultHealthConfig]

/-- C1 amended: whenever the abnormal-time trigger fires (late + weekend > 0),
`HealthScoreCalculator.calculate` and the daily reporter's inline score
subtract 2 points per abnormal commit with no cap; only the weekly reporter's
inline health-score section caps the deduction at 20. -/
theorem abnormal_deduction_uncapped (late weekend : ℤ) (h : late + weekend > 0) :
    abnormalTimeDeduction late weekend = 2 * (late + weekend) ∧
    dailyAbnormalTimeDeduction late weekend = 2 * (late + weekend) ∧
    weeklyAbnormalTimeDeduction late weekend = min (2 * (late + weekend)) 20 := by
  unfold abnormalTimeDeduction dailyAbnormalTimeDeduction weeklyAbnormalTimeDeduction
  simp only [if_pos h]
  refine ⟨by ring, by ring, ?_⟩
  have hmul : (late + weekend) * 2 = 2 * (late + weekend) := by ring
  rw [hmul]

/-- Witness for `abnormal_deduction_uncapped` at late = 15, weekend = 0. -/
theorem abnormal_deduction_uncapped_witness :
    (15 + 0 : ℤ) > 0 ∧
    (abnormalTimeDeduction 15 0 = 2 * (15 + 0) ∧
      dailyAbnormalTimeDeduction 15 0 = 2 * (15 + 0) ∧
      weeklyAbnormalTimeDeduction 15 0 = min (2 * (15 + 0)) 20) :=
  ⟨by norm_num, abnormal_deduction_uncapped 15 0 (by norm_num)⟩

/- ### Monthly commit-size distribution (src/src/reporters/monthly.py lines 350-363) -/

/-- monthly.py line 353: `small_commits = len([s for s in commit_sizes if s < 50])`
over the list of per-commit `lines_added + lines_deleted` totals. -/
def small_commits (sizes : List ℕ) : ℕ :=
  (sizes.filter (fun s => decide (s < 50))).length

/-- monthly.py line 354: `medium_commits = len([s for s in commit_sizes if 50 <= s < 200])`. -/
def medium_commits (sizes : List ℕ) : ℕ :=
  (sizes.filter (fun s => decide (50 ≤ s ∧ s < 200))).length

/-- monthly.py line 355: `large_commits = len([s for s in commit_sizes if s >= 200])`. -/
def large_commits (sizes : List ℕ) : ℕ :=
  (sizes.filter (fun s => decide (200 ≤ s))).length

/-- C4 counterexample: a commit whose added+deleted total is exactly 200 is
counted in the large bucket and not in the medium bucket, contradicting the
claim that 200 is medium. -/
theorem commit_size_200_counterexample :
    medium_commits [200] = 0 ∧ large_commits [200] = 1 := by decide

/-- C4 amended: the monthly commit-size buckets are small `< 50`,
medium `50 ≤ s < 200` and large `s ≥ 200` (a commit with exactly 200
changed lines counts as large), and the three bucket counts always sum to
the total number of commits. -/
theorem commit_size_partition (sizes : List ℕ) :
    small_commits sizes + medium_commits sizes + large_commits sizes
      = sizes.length := by
  induction sizes with
  | nil => rfl
  | cons a t ih =>
    unfold small_commits medium_commits large_commits at ih ⊢
    simp only [List.filter_cons]
    by_cases h1 : a < 50
    · simp only [decide_eq_true (by omega : a < 50),
        decide_eq_false (by omega : ¬(50 ≤ a ∧ a < 200)),
        decide_eq_false (by omega : ¬(200 ≤ a))]
      simp only [if_true, if_false, Bool.false_eq_true, List.length_cons]
      omega
    · by_cases h2 : a < 200
      · simp only [decide_eq_false (by omega : ¬(a < 50)),
          decide_eq_true (by omega : 50 ≤ a ∧ a < 200),
          decide_eq_false (by omega : ¬(200 ≤ a))]
        simp only [if_true, if_false, Bool.false_eq_true, List.length_cons]
        omega
      · simp only [decide_eq_false (by omega : ¬(a < 50)),
          decide_eq_false (by omega : ¬(50 ≤ a ∧ a < 200)),
          decide_eq_true (by omega : 200 ≤ a)]
        simp only [if_true, if_false, Bool.false_eq_true, List.length_cons]
        omega

/- ### Late-night classification (src/src/utils/helpers.py lines 34-49) -/

/-- `is_late_night` (helpers.py lines 34-49) after extracting `hour` from the
parsed timestamp and the start/end hours from the configured window strings:
when the window crosses midnight (`late_start > late_end`) membership is
`hour >= late_start or hour < late_end`, otherwise `late_start <= hour < late_end`.
The minute of the timestamp is ignored by the source. -/
def is_late_night (hour late_start late_end : ℕ) : Bool :=
  if late_start > late_end then decide (hour ≥ late_start) || decide (hour < late_end)
  else decide (late_start ≤ hour) && decide (hour < late_end)

/-- C8: with the 22:00-06:00 window (crossing midnight) `is_late_night`
classifies by modular membership on the hour: for every hour of the 24-hour
dial it agrees with `(h + 2) % 24 < 8`, and in particular a commit at 23:30
and one at 02:30 are late-night while one at 21:30 is not. -/
theorem late_night_cross_midnight :
    (∀ h : Fin 24, (is_late_night h.val 22 6 = true ↔ (h.val + 2) % 24 < 8)) ∧
    is_late_night 23 22 6 = true ∧
    is_late_night 2 22 6 = true ∧
    is_late_night 21 22 6 = false := by
  refine ⟨by decide, by decide, by decide, by decide⟩

/- ### Weekly report week numbering (src/src/reporters/weekly.py lines 80-90) -/

/-- Dates of the source's `datetime` objects are modelled by their day number
relative to 1970-01-01 in the proleptic Gregorian calendar, computed by the
standard civil-calendar conversion (the arithmetic underlying Python's
`datetime.date`).  Valid for the years of interest (all inputs here are CE
dates, where `Int.fdiv` agrees with the C truncating division of the
standard algorithm). -/
def daysFromCivil (y m d : ℤ) : ℤ :=
  let y2 := if m ≤ 2 then y - 1 else y
  let era := y2.fdiv 400
  let yoe := y2 - era * 400
  let doy := (153 * (m + (if m > 2 then -3 else 9)) + 2).fdiv 5 + d - 1
  let doe := yoe * 365 + yoe.fdiv 4 - yoe.fdiv 100 + doy
  era * 146097 + doe - 719468

/-- Python's `datetime.weekday()` (Monday = 0 ... Sunday = 6) on a day
number: 1970-01-01 was a Thursday (weekday 3). -/
def pyWeekday (rd : ℤ) : ℤ := (rd + 3).emod 7

/-- weekly.py lines 81-83: `days_to_first_monday = (7 - jan1.weekday()) % 7`
followed by the (unreachable) reassignment to 7 when the remainder is 0 for
a non-Monday January 1st. -/
def days_to_first_monday (wd : ℤ) : ℤ :=
  let d := (7 - wd).emod 7
  if d = 0 ∧ wd ≠ 0 then 7 else d

/-- weekly.py line 84: `first_monday = jan1 + timedelta(days=days_to_first_monday
if jan1.weekday() != 0 else 0)`. -/
def first_monday_rd (jan1 : ℤ) : ℤ :=
  let wd := pyWeekday jan1
  jan1 + (if wd ≠ 0 then days_to_first_monday wd else 0)

/-- weekly.py lines 80-88: the week number put into `self.week_str`
(`f"{year}-W{week_number:02d}"`) for the week starting on the given date:
`((week_start - first_monday).days // 7) + 1`, counting weeks from the first
Monday of January of `week_start.year`. -/
def codeWeekNumber (y m d : ℤ) : ℤ :=
  let jan1 := daysFromCivil y 1 1
  let ws := daysFromCivil y m d
  (ws - first_monday_rd jan1).fdiv 7 + 1

/-- Modelled from the spec: a Gregorian year has 53 ISO 8601 weeks exactly
when it starts or ends on a Thursday. -/
def isoLongYear (y : ℤ) : Bool :=
  decide (pyWeekday (daysFromCivil y 1 1) = 3) ||
    decide (pyWeekday (daysFromCivil y 12 31) = 3)

/-- Modelled from the spec: number of ISO 8601 weeks in a Gregorian year. -/
def isoWeeksInYear (y : ℤ) : ℤ := if isoLongYear y then 53 else 52

/-- Modelled from the spec: the ISO 8601 week number of a date, via the
standard ordinal-day formula `(10 + ordinal - isoWeekday) / 7` with the
year-boundary adjustments. -/
def isoWeekNumber (y m d : ℤ) : ℤ :=
  let rd := daysFromCivil y m d
  let ordinalDay := rd - daysFromCivil y 1 1 + 1
  let isoWd := pyWeekday rd + 1
  let raw := (10 + ordinalDay - isoWd).fdiv 7
  if raw < 1 then isoWeeksInYear (y - 1)
  else if raw > isoWeeksInYear y then 1
  else raw

/-- C3: the weekly reporter labels the week starting Monday 2025-01-06 as
week 1 (weeks counted from the first Monday of January), while its ISO 8601
week number is 2: the source's `week_str` does not carry the ISO week
number. -/
theorem week_number_not_iso :
    codeWeekNumber 2025 1 6 = 1 ∧
    isoWeekNumber 2025 1 6 = 2 ∧
    pyWeekday (daysFromCivil 2025 1 6) = 0 ∧
    codeWeekNumber 2025 1 6 ≠ isoWeekNumber 2025 1 6 := by
  refine ⟨by decide, by decide, by decide, by decide⟩

/- ### GitLab provider per-file stat distribution (src/src/providers/gitlab.py lines 226-240) -/

/-- `FileChange` of src/src/providers/base.py lines 12-21 (the `net` derived
field is omitted; `added` and `deleted` are the nonnegative diff counts). -/
structure FileChange where
  path : String
  added : ℕ
  deleted : ℕ
deriving DecidableEq

/-- gitlab.py lines 231-240: the commit's stats totals are distributed over
the diff's file list with integer floor division (`total // len(files)` per
file); an empty file list becomes the synthetic `(unknown)` file carrying
the totals. -/
def distributeStats (paths : List String) (total_added total_deleted : ℕ) : List FileChange :=
  if paths.isEmpty then [⟨"(unknown)", total_added, total_deleted⟩]
  else paths.map (fun p => ⟨p, total_added / paths.length, total_deleted / paths.length⟩)

/-- `CommitInfo.lines_added` (src/src/providers/base.py lines 34-36): the sum
of per-file `added` counts. -/
def lines_added (files : List FileChange) : ℕ :=
  (files.map FileChange.added).sum

/-- C10: when a GitLab commit's diff lists `n ≥ 1` files, every file receives
`added = total_additions / n` and `deleted = total_deletions / n` (floor), so
the derived `lines_added` equals `n * (total_additions / n)`, which is
strictly less than the upstream total whenever `n` does not divide it. -/
theorem gitlab_distribution_floor (paths : List String) (tA tD : ℕ)
    (hne : paths ≠ []) :
    (∀ f ∈ distributeStats paths tA tD,
        f.added = tA / paths.length ∧ f.deleted = tD / paths.length) ∧
    lines_added (distributeStats paths tA tD) = paths.length * (tA / paths.length) ∧
    (¬ (paths.length ∣ tA) → lines_added (distributeStats paths tA tD) < tA) := by
  have hempty : paths.isEmpty = false := by
    cases paths with
    | nil => exact absurd rfl hne
    | cons a t => rfl
  unfold distributeStats
  rw [hempty]
  simp only [Bool.false_eq_true, if_false]
  refine ⟨?_, ?_, ?_⟩
  · intro f hf
    obtain ⟨p, _, rfl⟩ := List.mem_map.mp hf
    exact ⟨rfl, rfl⟩
  · unfold lines_added
    rw [List.map_map]
    have hmap : (FileChange.added ∘ fun p =>
        (⟨p, tA / paths.length, tD / paths.length⟩ : FileChange))
        = fun _ => tA / paths.length := rfl
    rw [hmap, List.map_const', List.sum_replicate, smul_eq_mul]
  · intro hndvd
    unfold lines_added
    rw [List.map_map]
    have hmap : (FileChange.added ∘ fun p =>
        (⟨p, tA / paths.length, tD / paths.length⟩ : FileChange))
        = fun _ => tA / paths.length := rfl
    rw [hmap, List.map_const', List.sum_replicate, smul_eq_mul]
    have hmod := Nat.div_add_mod tA paths.length
    have hmodne : tA % paths.length ≠ 0 := fun h =>
      hndvd (Nat.dvd_of_mod_eq_zero h)
    omega

/-- Witness for `gitlab_distribution_floor`: three files and 10 added lines
give each file 3 added lines, so `lines_added = 9 < 10`. -/
theorem gitlab_distribution_floor_witness :
    (["a", "b", "c"] : List String) ≠ [] ∧ ¬ ((3 : ℕ) ∣ 10) ∧
    lines_added (distributeStats ["a", "b", "c"] 10 5) = 3 * (10 / 3) ∧
    lines_added (distributeStats ["a", "b", "c"] 10 5) < 10 :=
  ⟨by decide, by decide,
    (gitlab_distribution_floor ["a", "b", "c"] 10 5 (by decide)).2.1,
    (gitlab_distribution_floor ["a", "b", "c"] 10 5 (by decide)).2.2 (by decide)⟩

/- ### Rework analyzer (src/src/analyzers/rework.py lines 42-90) -/

/-- One commit as consumed by `ReworkAnalyzer.analyze`: the parsed commit
timestamp (`parse_iso_datetime(commit.date)`, modelled as seconds since the
epoch) and its per-file changes.  The commits handed to `analyze` are those
fetched for the add-window (`since = f"{add_days} days ago"`). -/
structure ReworkCommit where
  date : ℤ
  files : List FileChange
deriving DecidableEq

/-- One entry of the per-file change history dictionary
(rework.py lines 61-66): timestamp, added, deleted. -/
structure ChangeRec where
  date : ℤ
  added : ℕ
  deleted : ℕ
deriving DecidableEq

/-- rework.py lines 55-66: iterate commits, then their files, appending
`(path, {date, added, deleted})` in encounter order. -/
def reworkEntries (commits : List ReworkCommit) : List (String × ChangeRec) :=
  commits.flatMap (fun c => c.files.map (fun f => (f.path, ⟨c.date, f.added, f.deleted⟩)))

/-- The keys of a Python dict built by appending, in first-appearance order. -/
def dedupKeepFirst : List String → List String
  | [] => []
  | p :: rest => p :: (dedupKeepFirst rest).filter (fun q => decide (q ≠ p))

/-- rework.py line 74: `changes.sort(key=lambda x: x['date'])` — a stable
sort by timestamp. -/
def sortChangesByDate (l : List ChangeRec) : List ChangeRec :=
  l.mergeSort (fun a b => decide (a.date ≤ b.date))

/-- rework.py lines 76-85: for each change `i`, for each subsequent change
`j` whose day difference (`(date_j - date_i).days`, floor of the second
difference over 86400) is at most `delete_days`, accumulate
`min(added_i, deleted_j)`. -/
def pairRework (delete_days : ℤ) : List ChangeRec → ℕ
  | [] => 0
  | c :: rest =>
      (rest.map (fun cj =>
        if (cj.date - c.date).fdiv 86400 ≤ delete_days
        then min c.added cj.deleted else 0)).sum
      + pairRework delete_days rest

/-- `ReworkAnalyzer.analyze` (rework.py lines 42-90) on the fetched commit
list: group the per-file change histories, sort each by date, accumulate the
pairwise rework estimate and the total added lines, and derive the rate as
`rework / total_added * 100` (0 when nothing was added). -/
def reworkAnalyze (commits : List ReworkCommit) (delete_days : ℤ) : ℕ × ℕ × ℚ :=
  let es := reworkEntries commits
  let paths := dedupKeepFirst (es.map Prod.fst)
  let groups := paths.map
    (fun p => sortChangesByDate ((es.filter (fun e => decide (e.1 = p))).map Prod.snd))
  let rework_lines : ℕ := (groups.map (pairRework delete_days)).sum
  let total_added : ℕ := (groups.map (fun g => (g.map ChangeRec.added).sum)).sum
  let rework_rate : ℚ :=
    if total_added > 0 then (rework_lines : ℚ) / (total_added : ℚ) * 100 else 0
  (rework_lines, total_added, rework_rate)

/-- The E3 history: 100 lines added to `x.py` on 2025-01-13 (taken as second
0) and 80 lines deleted from it one day (86400 s) later. -/
def e3Commits : List ReworkCommit :=
  [⟨0, [⟨"x.py", 100, 0⟩]⟩, ⟨86400, [⟨"x.py", 0, 80⟩]⟩]

/-- C7: on the E3 history (add 100 lines on 2025-01-13, delete 80 on
2025-01-14) `ReworkAnalyzer.analyze` with delete-window 3 days returns
rework lines `min(100, 80) = 80`, total added 100, and rate 80 percent,
by accumulating `min(added_i, deleted_j)` over subsequent changes within
the delete window. -/
theorem rework_e3 : reworkAnalyze e3Commits 3 = (80, 100, 80) := by
  have hs : sortChangesByDate [⟨0, 100, 0⟩, ⟨86400, 0, 80⟩]
      = [⟨0, 100, 0⟩, ⟨86400, 0, 80⟩] :=
    List.mergeSort_of_sorted (by decide)
  simp only [reworkAnalyze, e3Commits, reworkEntries, dedupKeepFirst,
    List.flatMap_cons, List.flatMap_nil, List.map_cons, List.map_nil,
    List.append_nil, List.cons_append, List.nil_append, List.filter_cons,
    List.filter_nil]
  norm_num [hs, pairRework]

/- ### Contributor ranking (src/src/reporters/weekly.py lines 135-195,
     src/src/reporters/monthly.py lines 176-218) -/

/-- One commit dict as consumed by the ranking sections: author, line
counts, file count and repository name. -/
structure RankCommit where
  author : String
  lines_added : ℕ
  lines_deleted : ℕ
  files : ℕ
  repo : String
deriving DecidableEq

/-- The per-author accumulator of `author_stats` (weekly.py lines 135-148,
monthly.py lines 176-189).  The Python `set` of repositories is modelled as
an insertion-ordered duplicate-free list, which carries the same
cardinality. -/
structure AuthorStats where
  commits : ℕ
  added : ℕ
  deleted : ℕ
  files : ℕ
  repos : List String
deriving DecidableEq

/-- The `defaultdict` initial value. -/
def emptyAuthorStats : AuthorStats := ⟨0, 0, 0, 0, []⟩

/-- One loop body of the aggregation: bump the counters and add the
repository to the set. -/
def updateAuthorStats (s : AuthorStats) (c : RankCommit) : AuthorStats :=
  { commits := s.commits + 1
    added := s.added + c.lines_added
    deleted := s.deleted + c.lines_deleted
    files := s.files + c.files
    repos := if c.repo ∈ s.repos then s.repos else s.repos ++ [c.repo] }

/-- Update the insertion-ordered author dictionary with one commit
(Python dicts preserve the insertion order of first touch). -/
def updateAssoc : List (String × AuthorStats) → RankCommit → List (String × AuthorStats)
  | [], c => [(c.author, updateAuthorStats emptyAuthorStats c)]
  | (a, s) :: rest, c =>
      if a = c.author then (a, updateAuthorStats s c) :: rest
      else (a, s) :: updateAssoc rest c

/-- The `author_stats` dictionary after the aggregation loop, in insertion
order. -/
def buildAuthorStats (cs : List RankCommit) : List (String × AuthorStats) :=
  cs.foldl updateAssoc []

/-- Python `max(generator, default=1)`: the maximum of a nonempty list, 1
when it is empty. -/
def maxOrDefaultOne : List ℕ → ℕ
  | [] => 1
  | x :: xs => xs.foldl max x

/-- `calc_score` (weekly.py lines 164-168, monthly.py lines 203-207):
commits, added lines and repository count, each normalized to the run
maximum and weighted 30/50/20. -/
def calc_score (s : AuthorStats) (max_commits max_added max_repos : ℕ) : ℚ :=
  ((s.commits : ℚ) / (max_commits : ℚ)) * 30
    + ((s.added : ℚ) / (max_added : ℚ)) * 50
    + ((s.repos.length : ℚ) / (max_repos : ℚ)) * 20

/-- The composite score of a stats record within a given commit set (the
maxima of weekly.py lines 160-162 are computed over `author_stats`). -/
def scoreIn (cs : List RankCommit) (s : AuthorStats) : ℚ :=
  let stats := buildAuthorStats cs
  calc_score s
    (maxOrDefaultOne (stats.map (fun x => x.2.commits)))
    (maxOrDefaultOne (stats.map (fun x => x.2.added)))
    (maxOrDefaultOne (stats.map (fun x => x.2.repos.length)))

/-- `sorted(author_stats.items(), key=lambda x: calc_score(x[1]), reverse=True)`
(weekly.py lines 170-174, monthly.py line 209): Python's stable descending
sort, modelled as a stable merge sort under the total relation
"score of the left is at least the score of the right". -/
def sortedAuthors (cs : List RankCommit) : List (String × AuthorStats) :=
  (buildAuthorStats cs).mergeSort (fun x y => decide (scoreIn cs y.2 ≤ scoreIn cs x.2))

/-- The displayed ranking order (the monthly report additionally truncates
this list to its first ten entries). -/
def rankedAuthors (cs : List RankCommit) : List String :=
  (sortedAuthors cs).map Prod.fst

/-- Two same-scored authors, `bob` first in commit order. -/
def tieCommits : List RankCommit :=
  [⟨"bob", 10, 0, 1, "r1"⟩, ⟨"alice", 10, 0, 1, "r1"⟩]

/-- The aggregate both tied authors end up with. -/
def tieStats : AuthorStats := ⟨1, 10, 0, 1, ["r1"]⟩

/-- C5 counterexample: `bob` and `alice` have identical stats and hence equal
composite scores, yet the ranking displays `bob` first because he appears
first in the commit list, even though `alice` is lexicographically smaller —
ties are not broken by author name ascending. -/
theorem ranking_tie_counterexample :
    buildAuthorStats tieCommits = [("bob", tieStats), ("alice", tieStats)] ∧
    scoreIn tieCommits tieStats = 100 ∧
    rankedAuthors tieCommits = ["bob", "alice"] ∧
    ("alice").data < ("bob").data := by
  have hbuild : buildAuthorStats tieCommits = [("bob", tieStats), ("alice", tieStats)] := by
    decide
  have hscore : scoreIn tieCommits tieStats = 100 := by
    unfold scoreIn
    rw [hbuild]
    norm_num [calc_score, maxOrDefaultOne, tieStats]
  have hsorted : sortedAuthors tieCommits = [("bob", tieStats), ("alice", tieStats)] := by
    unfold sortedAuthors
    rw [hbuild]
    exact List.mergeSort_of_sorted (by simp)
  refine ⟨hbuild, hscore, ?_, by decide⟩
  unfold rankedAuthors
  rw [hsorted]
  rfl

/-- C5 amended: the rankings of the weekly and monthly reports are
deterministic on ties, but the tie-break is the order in which the authors
first appear in the commit list (the stable sort preserves the insertion
order of `author_stats`), not author name ascending: whenever `(a, sa)`
precedes `(b, sb)` in the aggregated dictionary and their composite scores
are equal, `a` still precedes `b` in the sorted ranking. -/
theorem ranking_tie_stable (cs : List RankCommit) (a b : String)
    (sa sb : AuthorStats)
    (hsub : [(a, sa), (b, sb)].Sublist (buildAuthorStats cs))
    (heq : scoreIn cs sa = scoreIn cs sb) :
    [(a, sa), (b, sb)].Sublist (sortedAuthors cs) := by
  unfold sortedAuthors
  refine List.pair_sublist_mergeSort ?_ ?_ ?_ hsub
  · intro x y z hxy hyz
    simp only [decide_eq_true_eq] at hxy hyz ⊢
    exact le_trans hyz hxy
  · intro x y
    rcases le_total (scoreIn cs y.2) (scoreIn cs x.2) with h | h
    · simp [h]
    · simp [h]
  · simp [heq]

/-- Witness for `ranking_tie_stable` on the two tied authors of
`tieCommits`. -/
theorem ranking_tie_stable_witness :
    [("bob", tieStats), ("alice", tieStats)].Sublist (buildAuthorStats tieCommits) ∧
    scoreIn tieCommits tieStats = scoreIn tieCommits tieStats ∧
    [("bob", tieStats), ("alice", tieStats)].Sublist (sortedAuthors tieCommits) := by
  have hbuild : buildAuthorStats tieCommits = [("bob", tieStats), ("alice", tieStats)] := by
    decide
  have hsub : [("bob", tieStats), ("alice", tieStats)].Sublist (buildAuthorStats tieCommits) := by
    rw [hbuild]
  exact ⟨hsub, rfl, ranking_tie_stable tieCommits "bob" "alice" tieStats tieStats hsub rfl⟩

/- ### EnterpriseApi all-branches deduplication (src/src/providers/codeup.py lines 325-351) -/

/-- A commit as handled by `_get_commits_all_branches`: only its hash (the
dedup key) and its date string (the sort key) matter here. -/
structure CodeupCommit where
  hash : String
  date : String
deriving DecidableEq

/-- The inner loop of codeup.py lines 343-348 for one branch's commit list:
append each commit whose hash is not yet in the seen-set, recording the hash.
Returns the updated seen-set and accumulator. -/
def addBranchCommits : List String → List CodeupCommit → List CodeupCommit →
    List String × List CodeupCommit
  | seen, acc, [] => (seen, acc)
  | seen, acc, c :: cs =>
      if c.hash ∈ seen then addBranchCommits seen acc cs
      else addBranchCommits (c.hash :: seen) (acc ++ [c]) cs

/-- The outer loop of codeup.py lines 338-348 over the branches. -/
def dedupBranches : List String → List CodeupCommit → List (List CodeupCommit) →
    List CodeupCommit
  | _, acc, [] => acc
  | seen, acc, b :: bs =>
      let r := addBranchCommits seen acc b
      dedupBranches r.1 r.2 bs

/-- codeup.py line 350: `all_commits.sort(key=lambda c: c.date, reverse=True)`,
a stable descending sort by date. -/
def sortCommitsByDateDesc (l : List CodeupCommit) : List CodeupCommit :=
  l.mergeSort (fun a b => decide (b.date ≤ a.date))

/-- `_get_commits_all_branches` (codeup.py lines 325-351) given the
per-branch commit listings: when the branch list is empty the source falls
back to a plain single-branch fetch of the default branch (modelled by the
`fallback` argument, returned unchanged); otherwise each branch's commits
are folded through the hash seen-set and the result is sorted by date
descending. -/
def get_commits_all_branches (branchCommits : List (List CodeupCommit))
    (fallback : List CodeupCommit) : List CodeupCommit :=
  if branchCommits.isEmpty then fallback
  else sortCommitsByDateDesc (dedupBranches [] [] branchCommits)

theorem addBranchCommits_invariant (b : List CodeupCommit) :
    ∀ (seen : List String) (acc : List CodeupCommit),
      (acc.map CodeupCommit.hash).Nodup →
      (∀ h ∈ acc.map CodeupCommit.hash, h ∈ seen) →
      ((addBranchCommits seen acc b).2.map CodeupCommit.hash).Nodup ∧
        (∀ h ∈ (addBranchCommits seen acc b).2.map CodeupCommit.hash,
          h ∈ (addBranchCommits seen acc b).1) := by
  induction b with
  | nil => intro seen acc hnd hsub; exact ⟨hnd, hsub⟩
  | cons c cs ih =>
    intro seen acc hnd hsub
    unfold addBranchCommits
    by_cases hmem : c.hash ∈ seen
    · rw [if_pos hmem]
      exact ih seen acc hnd hsub
    · rw [if_neg hmem]
      apply ih
      · rw [List.map_append, List.map_singleton]
        rw [List.nodup_append]
        refine ⟨hnd, List.nodup_singleton _, ?_⟩
        intro h hh
        simp only [List.mem_singleton]
        intro heq
        exact hmem (heq ▸ hsub h hh)
      · intro h hh
        rw [List.map_append, List.map_singleton, List.mem_append,
          List.mem_singleton] at hh
        rcases hh with hh | hh
        · exact List.mem_cons_of_mem _ (hsub h hh)
        · exact hh ▸ List.mem_cons_self _ _
  
theorem dedupBranches_invariant (bs : List (List CodeupCommit)) :
    ∀ (seen : List String) (acc : List CodeupCommit),
      (acc.map CodeupCommit.hash).Nodup →
      (∀ h ∈ acc.map CodeupCommit.hash, h ∈ seen) →
      ((dedupBranches seen acc bs).map CodeupCommit.hash).Nodup := by
  induction bs with
  | nil => intro seen acc hnd _; exact hnd
  | cons b rest ih =>
    intro seen acc hnd hsub
    unfold dedupBranches
    obtain ⟨hnd2, hsub2⟩ := addBranchCommits_invariant b seen acc hnd hsub
    exact ih _ _ hnd2 hsub2

/-- C9: for the EnterpriseApi provider in all-branches mode, whenever the
branch listing is nonempty, the commit list produced from the per-branch
listings contains no two commits with the same hash: deduplication by hash
in a seen-set guarantees a commit reachable from multiple branches appears
at most once, and the final descending date sort only permutes the list. -/
theorem all_branches_hash_nodup (branchCommits : List (List CodeupCommit))
    (fallback : List CodeupCommit) (hne : branchCommits ≠ []) :
    ((get_commits_all_branches branchCommits fallback).map CodeupCommit.hash).Nodup := by
  unfold get_commits_all_branches
  have hempty : branchCommits.isEmpty = false := by
    cases branchCommits with
    | nil => exact absurd rfl hne
    | cons b bs => rfl
  rw [hempty]
  simp only [Bool.false_eq_true, if_false]
  have hnd := dedupBranches_invariant branchCommits [] []
    (by simp) (by simp)
  have hperm : List.Perm
      ((sortCommitsByDateDesc (dedupBranches [] [] branchCommits)).map CodeupCommit.hash)
      ((dedupBranches [] [] branchCommits).map CodeupCommit.hash) :=
    (List.mergeSort_perm _ _).map CodeupCommit.hash
  exact hperm.nodup_iff.mpr hnd

/-- Two branch listings sharing the hash `h1`, used as the witness input. -/
def witnessBranches : List (List CodeupCommit) :=
  [[⟨"h1", "2025-01-02 10:00:00"⟩, ⟨"h2", "2025-01-01 09:00:00"⟩],
    [⟨"h1", "2025-01-02 10:00:00"⟩, ⟨"h3", "2025-01-03 11:00:00"⟩]]

/-- Witness for `all_branches_hash_nodup`: two branches that share a commit
hash still yield a duplicate-free result. -/
theorem all_branches_hash_nodup_witness :
    witnessBranches ≠ [] ∧
    ((get_commits_all_branches witnessBranches []).map CodeupCommit.hash).Nodup :=
  ⟨by simp [witnessBranches], all_branches_hash_nodup witnessBranches [] (by simp [witnessBranches])⟩

/- ### Dashboard preset redirects (src/src/utils/dashboard_generator.py) -/

/-- Python truthiness of the `project_days` integer in
`if range_days >= 60 and project_days and project_days < range_days`. -/
def truthyInt (p : ℤ) : Bool := decide (p ≠ 0)

/-- dashboard_generator.py line 629: the redirect decision for one preset.
`project_days` is `none` when no dated daily report exists (the Python
variable stays `None`), otherwise `(today - first_report_date).days + 1`. -/
def shouldRedirect (range_days : ℤ) (project_days : Option ℤ) : Bool :=
  decide (range_days ≥ 60) &&
    (match project_days with
      | none => false
      | some p => truthyInt p && decide (p < range_days))

/-- dashboard_generator.py lines 617-624: the five generated presets and
their file names (`index-all.html` is produced separately). -/
def dashboardPresets : List (ℤ × String) :=
  [(7, "index.html"), (14, "index-14d.html"), (30, "index-30d.html"),
    (60, "index-60d.html"), (90, "index-90d.html")]

/-- Text of `generate_redirect_html` up to the refresh-meta target
(dashboard_generator.py lines 16-25). -/
def redirectPart1 : String :=
  "<!DOCTYPE html>\n<html lang=\"zh-CN\">\n<head>\n    <meta charset=\"UTF-8\">\n    <meta http-equiv=\"refresh\" content=\""

/-- Text of `generate_redirect_html` between the refresh-meta target and the
fallback anchor target (dashboard_generator.py lines 25-53), with the day
counts interpolated. -/
def redirectPart2 (days project_days : ℤ) : String :=
  "\">\n    <title>重定向中...</title>\n    <style>\n        body \x7b\n            font-family: -apple-system, BlinkMacSystemFont, \"Segoe UI\", Roboto, Arial, sans-serif;\n            background: linear-gradient(135deg, #667eea 0%, #764ba2 100%);\n            min-height: 100vh;\n            display: flex;\n            align-items: center;\n            justify-content: center;\n            margin: 0;\n        \x7d\n        .message \x7b\n            background: white;\n            padding: 40px;\n            border-radius: 12px;\n            text-align: center;\n            box-shadow: 0 4px 6px rgba(0,0,0,0.1);\n        \x7d\n        .message h2 \x7b color: #333; margin-bottom: 15px; \x7d\n        .message p \x7b color: #666; margin-bottom: 20px; \x7d\n        .message a \x7b color: #667eea; text-decoration: none; \x7d\n    </style>\n</head>\n<body>\n    <div class=\"message\">\n        <h2>正在跳转...</h2>\n        <p>项目运行仅 "
    ++ toString project_days ++ " 天，不足 " ++ toString days
    ++ " 天</p>\n        <p>正在跳转到 <a href=\""

/-- Closing text of `generate_redirect_html` (dashboard_generator.py
lines 53-56). -/
def redirectPart3 : String :=
  "\">项目全周期仪表盘</a></p>\n    </div>\n</body>\n</html>"

/-- `generate_redirect_html(target_url, days, project_days)`
(dashboard_generator.py lines 16-56): the fixed redirect document with a
zero-delay refresh meta directive pointing at `target_url` and a
user-readable fallback link to the same target. -/
def generate_redirect_html (target_url : String) (days project_days : ℤ) : String :=
  redirectPart1 ++ ("0; url=" ++ target_url) ++ redirectPart2 days project_days
    ++ (target_url ++ redirectPart3)

/-- C2 counterexample: the 30-day preset is listed, a 15-day history is
shorter than the requested 30 days, yet `generate_dashboard` does not
produce a redirect for it (the redirect branch requires `range_days >= 60`);
the window is clamped to the project start instead. -/
theorem preset30_no_redirect :
    shouldRedirect 30 (some 15) = false ∧
    ((30 : ℤ), "index-30d.html") ∈ dashboardPresets ∧ (15 : ℤ) < 30 := by
  refine ⟨by decide, by decide, by decide⟩

/-- C2 amended: among the dashboard presets only the 60- and 90-day files
become redirects when the project history (a positive day count) is shorter
than the requested length; the 7/14/30-day presets never redirect and are
generated as clamped dashboards.  The redirect document itself does carry a
zero-delay refresh meta directive pointing at `index-all.html`. -/
theorem dashboard_redirect_only_60_90 :
    (∀ dp ∈ dashboardPresets, ∀ p : ℤ, 0 < p →
      (shouldRedirect dp.1 (some p) = true ↔ (dp.1 = 60 ∨ dp.1 = 90) ∧ p < dp.1)) ∧
    (∃ pre post : String,
      generate_redirect_html ("index-all.html") 90 10
        = pre ++ ("0; url=index-all.html") ++ post) := by
  constructor
  · intro dp hdp p hp
    fin_cases hdp <;> simp [shouldRedirect, truthyInt] <;> omega
  · exact ⟨redirectPart1, redirectPart2 90 10 ++ (("index-all.html") ++ redirectPart3), rfl⟩

/-- Witness for `dashboard_redirect_only_60_90`: the 90-day preset with a
10-day history does redirect. -/
theorem dashboard_redirect_only_60_90_witness :
    (((90 : ℤ), "index-90d.html") ∈ dashboardPresets ∧ (0 : ℤ) < 10) ∧
    (shouldRedirect 90 (some 10) = true ↔ ((90 : ℤ) = 60 ∨ (90 : ℤ) = 90) ∧ (10 : ℤ) < 90) :=
  ⟨⟨by decide, by decide⟩,
    dashboard_redirect_only_60_90.1 (90, "index-90d.html") (by decide) 10 (by decide)⟩
